import Mathlib

/-!
Verification of `tools/generate_package_config.py`, a launcher script that
locates a checked-in Dart SDK binary and runs `dart pub get --offline` in the
repository root, propagating the child's exit code.

The embedding is shallow:

* Paths are `String`s.  The script's calls into `os.path` are modelled with
  POSIX (`posixpath`) semantics: `posixJoin` is two-argument
  `os.path.join`, `posixDirname` is `os.path.dirname`, `posixBasename` is
  `os.path.basename`.  The separator is `'/'`.
* `platform.system()` is an arbitrary string parameter `osId`.
* `os.path.realpath` is an arbitrary function parameter
  `realpath : String → String`, applied to the script's `__file__` path.
* `subprocess.run` is modelled by an oracle `spawn : ChildCall → SpawnResult`:
  the call either completes with a return code, or the invocation mechanism
  itself fails (`OSError` such as `FileNotFoundError` / `PermissionError`),
  which in the script propagates as an uncaught exception.
-/

/-- `s.startswith('/')` on the character list of a string. -/
def strStartsWithSlash (s : String) : Bool :=
  s.data.head? = some '/'

/-- `s.endswith('/')` on the character list of a string. -/
def strEndsWithSlash (s : String) : Bool :=
  s.data.getLast? = some '/'

/-- Two-argument `posixpath.join`: if `b` is absolute the result is `b`;
otherwise `b` is appended to `a`, inserting a `'/'` unless `a` is empty or
already ends with one. -/
def posixJoin (a b : String) : String :=
  if strStartsWithSlash b then b
  else if a.data.isEmpty || strEndsWithSlash a then String.mk (a.data ++ b.data)
  else String.mk (a.data ++ '/' :: b.data)

/-- Strip trailing `'/'` characters (`str.rstrip('/')`). -/
def rstripSlash (l : List Char) : List Char :=
  (l.reverse.dropWhile (fun c => c = '/')).reverse

/-- `posixpath.dirname`: the portion of `p` up to (and, when it consists only
of slashes, including) the last `'/'`; trailing slashes are stripped unless the
head is all slashes; the empty string when `p` has no `'/'`. -/
def posixDirname (p : String) : String :=
  let head := (p.data.reverse.dropWhile (fun c => c ≠ '/')).reverse
  if !head.isEmpty && !(head.all (fun c => c = '/')) then String.mk (rstripSlash head)
  else String.mk head

/-- `posixpath.basename`: the portion of `p` after the last `'/'`. -/
def posixBasename (p : String) : String :=
  String.mk ((p.data.reverse.takeWhile (fun c => c ≠ '/')).reverse)

/-- `is_windows()`: `platform.system() == 'Windows'`. -/
def is_windows (osId : String) : Bool :=
  osId == "Windows"

/-- `checked_in_sdk_path()`:
`os.path.join(os.path.dirname(os.path.realpath(__file__)), 'sdks', 'dart-sdk')`
(three-argument `os.path.join` folds from the left). -/
def checked_in_sdk_path (realpath : String → String) (file : String) : String :=
  let tools_dir := posixDirname (realpath file)
  posixJoin (posixJoin tools_dir "sdks") "dart-sdk"

/-- `checked_in_sdk_executable()`: `dart.exe` on Windows, `dart` elsewhere,
inside the `bin` subdirectory of the checked-in SDK root. -/
def checked_in_sdk_executable (osId : String) (realpath : String → String)
    (file : String) : String :=
  let name := if is_windows osId then "dart.exe" else "dart"
  posixJoin (posixJoin (checked_in_sdk_path realpath file) "bin") name

/-- The argument vector, working directory and environment handed to
`subprocess.run`.  `env = none` would mean "inherit the parent environment";
the script always passes an explicit mapping (`some _`). -/
structure ChildCall where
  args : List String
  cwd : String
  env : Option (List (String × String))
deriving DecidableEq

/-- `subprocess.run`'s environment semantics: an explicit `env` argument fully
replaces the parent environment, `none` inherits it. -/
def effectiveChildEnv (parentEnv : List (String × String)) (c : ChildCall) :
    List (String × String) :=
  c.env.getD parentEnv

/-- Outcome of `subprocess.run`: either the child completed with a return
code, or the invocation mechanism itself raised (`FileNotFoundError`,
`PermissionError`, ...). -/
inductive SpawnResult where
  | completed (returncode : Int)
  | spawnError
deriving DecidableEq

/-- `sdk_dir` as computed in `generate_package_config()`:
`os.path.dirname(os.path.dirname(os.path.realpath(__file__)))`. -/
def sdk_dir (realpath : String → String) (file : String) : String :=
  posixDirname (posixDirname (realpath file))

/-- The exact `subprocess.run` call constructed by
`generate_package_config()`: argument list
`[checked_in_sdk_executable(), 'pub', 'get', '--offline']`, `cwd = sdk_dir`,
and an explicit two-entry environment mapping. -/
def childCall (osId : String) (realpath : String → String) (file : String) :
    ChildCall :=
  { args := [checked_in_sdk_executable osId realpath file, "pub", "get", "--offline"]
    cwd := sdk_dir realpath file
    env := some [("PUB_HOSTED_URL", "http://fake/pub"),
                 ("PUB_CACHE", posixJoin (sdk_dir realpath file) ".dart_tool/sdk_pub_cache")] }

/-- `generate_package_config()`: run the child synchronously and return
`process.returncode`; an exception from `subprocess.run` propagates
(modelled as `Except.error`). -/
def generate_package_config (osId : String) (realpath : String → String)
    (file : String) (spawn : ChildCall → SpawnResult) : Except Unit Int :=
  match spawn (childCall osId realpath file) with
  | .completed c => .ok c
  | .spawnError => .error ()

/-- `Main()`: `sys.exit(generate_package_config())`.  The result is the
launcher process's exit status: the child's return code on completion, and 1
when the exception from `subprocess.run` escapes uncaught (CPython exits with
status 1 on an unhandled exception). -/
def Main (osId : String) (realpath : String → String) (file : String)
    (spawn : ChildCall → SpawnResult) : Int :=
  match generate_package_config osId realpath file spawn with
  | .ok c => c
  | .error () => 1

/-- Association-list lookup for the environment mapping (`dict` access). -/
def envLookup (e : List (String × String)) (k : String) : Option String :=
  (e.find? (fun kv => kv.1 = k)).map Prod.snd

/-- The path `p` lies under the directory `d`: `p` begins with `d` followed by
the path separator. -/
def underDir (d p : String) : Bool :=
  p.data.take (d.data.length + 1) = d.data ++ ['/']

/-- Rebuilding a string from its character list is the identity. -/
theorem stringMk_data (s : String) : String.mk s.data = s := by
  cases s
  rfl

/-- `takeWhile` keeps a block of non-separator characters and stops at the
following separator. -/
theorem takeWhile_ne_slash_append (t u : List Char) (h : ∀ c ∈ t, c ≠ '/') :
    (t ++ '/' :: u).takeWhile (fun c => c ≠ '/') = t := by
  induction t with
  | nil =>
      rw [List.nil_append, List.takeWhile_cons]
      simp
  | cons a as ih =>
      rw [List.cons_append, List.takeWhile_cons,
        if_pos (decide_eq_true (h a (List.mem_cons_self a as))),
        ih (fun c hc => h c (List.mem_cons_of_mem a hc))]

/-- `takeWhile` keeps a list all of whose characters avoid the separator. -/
theorem takeWhile_ne_slash_all (t : List Char) (h : ∀ c ∈ t, c ≠ '/') :
    t.takeWhile (fun c => c ≠ '/') = t := by
  induction t with
  | nil => rfl
  | cons a as ih =>
      rw [List.takeWhile_cons,
        if_pos (decide_eq_true (h a (List.mem_cons_self a as))),
        ih (fun c hc => h c (List.mem_cons_of_mem a hc))]

/-- The basename of `posixJoin a n` is `n` whenever the final component `n`
contains no separator. -/
theorem posixBasename_join (a n : String) (hn : ∀ c ∈ n.data, c ≠ '/') :
    posixBasename (posixJoin a n) = n := by
  have hrev : ∀ c ∈ n.data.reverse, c ≠ '/' := fun c hc => hn c (List.mem_reverse.mp hc)
  have hstart : strStartsWithSlash n = false := by
    unfold strStartsWithSlash
    cases hd : n.data with
    | nil => rfl
    | cons c cs =>
        have hc : c ≠ '/' := hn c (by rw [hd]; exact List.mem_cons_self c cs)
        simp [hc]
  unfold posixJoin
  rw [hstart]
  simp only [Bool.false_eq_true, if_false]
  by_cases hae : a.data.isEmpty = true
  · rw [if_pos (by rw [hae]; rfl)]
    have hnil : a.data = [] := List.isEmpty_iff.mp hae
    unfold posixBasename
    show String.mk (((a.data ++ n.data).reverse.takeWhile (fun c => c ≠ '/')).reverse) = n
    rw [hnil, List.nil_append, takeWhile_ne_slash_all n.data.reverse hrev,
      List.reverse_reverse, stringMk_data]
  · by_cases hse : strEndsWithSlash a = true
    · rw [if_pos (by rw [hse, Bool.or_true])]
      have hlast : a.data.getLast? = some '/' := by
        have h2 := hse
        unfold strEndsWithSlash at h2
        exact of_decide_eq_true h2
      unfold posixBasename
      show String.mk (((a.data ++ n.data).reverse.takeWhile (fun c => c ≠ '/')).reverse) = n
      rw [List.reverse_append]
      cases hr : a.data.reverse with
      | nil =>
          exfalso
          rw [← List.head?_reverse, hr] at hlast
          exact absurd hlast (by simp)
      | cons c cs =>
          have hc : c = '/' := by
            rw [← List.head?_reverse, hr] at hlast
            simpa using hlast
          rw [hc, takeWhile_ne_slash_append n.data.reverse cs hrev,
            List.reverse_reverse, stringMk_data]
    · have h1 : a.data.isEmpty = false := Bool.eq_false_iff.mpr hae
      have h2 : strEndsWithSlash a = false := Bool.eq_false_iff.mpr hse
      rw [if_neg (by rw [h1, h2]; simp)]
      unfold posixBasename
      show String.mk (((a.data ++ '/' :: n.data).reverse.takeWhile (fun c => c ≠ '/')).reverse) = n
      rw [List.reverse_append, List.reverse_cons, List.append_assoc, List.singleton_append,
        takeWhile_ne_slash_append n.data.reverse a.data.reverse hrev,
        List.reverse_reverse, stringMk_data]

/-- With a relative second component and a nonempty first component not ending
in the separator, `posixJoin` concatenates with a single inserted `'/'`. -/
theorem posixJoin_data_mid (a b : String) (hb : strStartsWithSlash b = false)
    (ha : a.data ≠ []) (ha2 : strEndsWithSlash a = false) :
    (posixJoin a b).data = a.data ++ '/' :: b.data := by
  unfold posixJoin
  rw [hb]
  simp only [Bool.false_eq_true, if_false]
  have h1 : a.data.isEmpty = false := by
    cases hd : a.data with
    | nil => exact absurd hd ha
    | cons c cs => rfl
  rw [if_neg (by rw [h1, ha2]; simp)]

/-- C1: for every exit code returned by the child process, the launcher's own
exit status equals that code; zero and non-zero values alike are propagated
verbatim by `sys.exit(generate_package_config())`. -/
theorem main_propagates_child_exit_code (osId : String) (realpath : String → String)
    (file : String) (spawn : ChildCall → SpawnResult) (c : Int)
    (h : spawn (childCall osId realpath file) = SpawnResult.completed c) :
    Main osId realpath file spawn = c := by
  unfold Main generate_package_config
  rw [h]

/-- Witness for C1: a stub child that exits with code 7 makes the launcher
exit with status 7. -/
theorem main_propagates_child_exit_code_witness :
    Main "Linux" (fun s => s) "/sdk/tools/generate_package_config.py"
      (fun _ => SpawnResult.completed 7) = 7 :=
  main_propagates_child_exit_code "Linux" (fun s => s)
    "/sdk/tools/generate_package_config.py" (fun _ => SpawnResult.completed 7) 7 rfl

/-- C2: for every parent environment, the environment mapping passed to the
child has exactly the two override keys `PUB_HOSTED_URL` and `PUB_CACHE` and
nothing else; the parent environment is fully replaced, never merged. -/
theorem child_env_fully_replaced (osId : String) (realpath : String → String)
    (file : String) (parentEnv : List (String × String)) :
    (effectiveChildEnv parentEnv (childCall osId realpath file)).map Prod.fst
      = ["PUB_HOSTED_URL", "PUB_CACHE"] := rfl

/-- C3: the computed executable filename carries the platform-appropriate
suffix: basename `dart.exe` exactly when the platform identifier is Windows,
and `dart` for every other platform identifier. -/
theorem executable_name_platform_suffix (osId : String) (realpath : String → String)
    (file : String) :
    posixBasename (checked_in_sdk_executable osId realpath file)
      = (if is_windows osId then "dart.exe" else "dart") := by
  have hexec : checked_in_sdk_executable osId realpath file
      = posixJoin (posixJoin (checked_in_sdk_path realpath file) "bin")
          (if is_windows osId then "dart.exe" else "dart") := rfl
  rw [hexec]
  by_cases hw : is_windows osId = true
  · rw [if_pos hw]
    exact posixBasename_join _ _ (by decide)
  · rw [if_neg hw]
    exact posixBasename_join _ _ (by decide)

/-- C4: the working directory passed to the child invocation is the parent
directory of the directory containing the launcher script. -/
theorem cwd_is_parent_of_launcher_dir (osId : String) (realpath : String → String)
    (file : String) :
    (childCall osId realpath file).cwd = posixDirname (posixDirname (realpath file)) := rfl

/-- C5: the child is invoked with the fixed arguments `pub get --offline`
after the executable path, the launcher waits synchronously, and it terminates
with the child's exit status. -/
theorem fixed_command_line_and_sync_wait (osId : String) (realpath : String → String)
    (file : String) (spawn : ChildCall → SpawnResult) (c : Int)
    (h : spawn (childCall osId realpath file) = SpawnResult.completed c) :
    (childCall osId realpath file).args
        = checked_in_sdk_executable osId realpath file :: ["pub", "get", "--offline"]
      ∧ Main osId realpath file spawn = c := by
  refine ⟨rfl, ?_⟩
  unfold Main generate_package_config
  rw [h]

/-- Witness for C5: a stub child that completes with code 0 yields launcher
exit status 0 alongside the fixed argument list. -/
theorem fixed_command_line_and_sync_wait_witness :
    (childCall "Darwin" (fun s => s) "/sdk/tools/generate_package_config.py").args
        = checked_in_sdk_executable "Darwin" (fun s => s)
            "/sdk/tools/generate_package_config.py" :: ["pub", "get", "--offline"]
      ∧ Main "Darwin" (fun s => s) "/sdk/tools/generate_package_config.py"
          (fun _ => SpawnResult.completed 0) = 0 :=
  fixed_command_line_and_sync_wait "Darwin" (fun s => s)
    "/sdk/tools/generate_package_config.py" (fun _ => SpawnResult.completed 0) 0 rfl

/-- C6 counterexample: with the script at
`/sdk/tools/generate_package_config.py`, the directory containing the launcher
is `/sdk/tools`, yet the `PUB_CACHE` value handed to the child is
`/sdk/.dart_tool/sdk_pub_cache`, which is not a path under `/sdk/tools`. -/
theorem pub_cache_not_under_launcher_dir :
    posixDirname "/sdk/tools/generate_package_config.py" = "/sdk/tools"
    ∧ envLookup (effectiveChildEnv []
        (childCall "Linux" (fun _ => "/sdk/tools/generate_package_config.py")
          "tools/generate_package_config.py")) "PUB_CACHE"
      = some "/sdk/.dart_tool/sdk_pub_cache"
    ∧ underDir "/sdk/tools" "/sdk/.dart_tool/sdk_pub_cache" = false :=
  ⟨rfl, rfl, rfl⟩

/-- C6 amended: the child environment consists of the registry-URL override
`PUB_HOSTED_URL`, whose value is the fixed URL `http://fake/pub` with the
non-resolvable host `fake`, and the cache-directory override `PUB_CACHE`,
whose value is a path under the project root directory (the parent of the
directory containing the launcher script). -/
theorem child_env_overrides (osId : String) (realpath : String → String)
    (file : String) (parentEnv : List (String × String))
    (h1 : (sdk_dir realpath file).data ≠ [])
    (h2 : strEndsWithSlash (sdk_dir realpath file) = false) :
    envLookup (effectiveChildEnv parentEnv (childCall osId realpath file)) "PUB_HOSTED_URL"
        = some "http://fake/pub"
    ∧ ∃ v, envLookup (effectiveChildEnv parentEnv (childCall osId realpath file)) "PUB_CACHE"
          = some v
        ∧ underDir (sdk_dir realpath file) v = true := by
  refine ⟨rfl, posixJoin (sdk_dir realpath file) ".dart_tool/sdk_pub_cache", rfl, ?_⟩
  have hdata : (posixJoin (sdk_dir realpath file) ".dart_tool/sdk_pub_cache").data
      = (sdk_dir realpath file).data ++ '/' :: ".dart_tool/sdk_pub_cache".data :=
    posixJoin_data_mid _ _ (by rfl) h1 h2
  unfold underDir
  rw [hdata]
  refine decide_eq_true ?_
  have hsplit : (sdk_dir realpath file).data ++ '/' :: ".dart_tool/sdk_pub_cache".data
      = ((sdk_dir realpath file).data ++ ['/']) ++ ".dart_tool/sdk_pub_cache".data := by
    rw [List.append_assoc, List.singleton_append]
  rw [hsplit, List.take_left' (by simp)]

/-- Witness for the amended C6 at a concrete script location, with a parent
environment that sets `PATH`. -/
theorem child_env_overrides_witness :
    envLookup (effectiveChildEnv [("PATH", "/usr/bin")]
        (childCall "Linux" (fun _ => "/sdk/tools/generate_package_config.py")
          "tools/generate_package_config.py")) "PUB_HOSTED_URL"
        = some "http://fake/pub"
    ∧ ∃ v, envLookup (effectiveChildEnv [("PATH", "/usr/bin")]
          (childCall "Linux" (fun _ => "/sdk/tools/generate_package_config.py")
            "tools/generate_package_config.py")) "PUB_CACHE"
          = some v
        ∧ underDir (sdk_dir (fun _ => "/sdk/tools/generate_package_config.py")
            "tools/generate_package_config.py") v = true :=
  child_env_overrides "Linux" (fun _ => "/sdk/tools/generate_package_config.py")
    "tools/generate_package_config.py" [("PATH", "/usr/bin")] (by decide) (by decide)

/-- C7: the vendored tool root is the `sdks/dart-sdk` subdirectory of the
launcher's own directory, and the executable is the platform-appropriate
filename inside that root's `bin` subdirectory, whenever the launcher's
directory is a nonempty path that does not end in the separator. -/
theorem vendored_tool_fixed_relative_path (osId : String) (realpath : String → String)
    (file : String)
    (h1 : (posixDirname (realpath file)).data ≠ [])
    (h2 : strEndsWithSlash (posixDirname (realpath file)) = false) :
    (checked_in_sdk_path realpath file).data
        = (posixDirname (realpath file)).data ++ "/sdks/dart-sdk".data
    ∧ (checked_in_sdk_executable osId realpath file).data
        = (posixDirname (realpath file)).data ++ "/sdks/dart-sdk/bin/".data
            ++ (if is_windows osId then "dart.exe" else "dart").data := by
  have s1 : (posixJoin (posixDirname (realpath file)) "sdks").data
      = (posixDirname (realpath file)).data ++ '/' :: "sdks".data :=
    posixJoin_data_mid _ _ (by rfl) h1 h2
  have s1n : (posixJoin (posixDirname (realpath file)) "sdks").data ≠ [] := by
    rw [s1]; simp
  have s1e : strEndsWithSlash (posixJoin (posixDirname (realpath file)) "sdks") = false := by
    unfold strEndsWithSlash
    rw [s1, List.getLast?_append]
    rfl
  have hpath : (checked_in_sdk_path realpath file).data
      = (posixDirname (realpath file)).data ++ "/sdks/dart-sdk".data := by
    show (posixJoin (posixJoin (posixDirname (realpath file)) "sdks") "dart-sdk").data = _
    rw [posixJoin_data_mid _ _ (by rfl) s1n s1e, s1, List.append_assoc]
    exact congrArg ((posixDirname (realpath file)).data ++ ·) (by decide)
  have hpn : (checked_in_sdk_path realpath file).data ≠ [] := by
    rw [hpath]; simp
  have hpe : strEndsWithSlash (checked_in_sdk_path realpath file) = false := by
    unfold strEndsWithSlash
    rw [hpath, List.getLast?_append]
    rfl
  have s3 : (posixJoin (checked_in_sdk_path realpath file) "bin").data
      = (checked_in_sdk_path realpath file).data ++ '/' :: "bin".data :=
    posixJoin_data_mid _ _ (by rfl) hpn hpe
  have s3n : (posixJoin (checked_in_sdk_path realpath file) "bin").data ≠ [] := by
    rw [s3]; simp
  have s3e : strEndsWithSlash (posixJoin (checked_in_sdk_path realpath file) "bin") = false := by
    unfold strEndsWithSlash
    rw [s3, List.getLast?_append]
    rfl
  have hexec : checked_in_sdk_executable osId realpath file
      = posixJoin (posixJoin (checked_in_sdk_path realpath file) "bin")
          (if is_windows osId then "dart.exe" else "dart") := rfl
  refine ⟨hpath, ?_⟩
  rw [hexec]
  by_cases hw : is_windows osId = true
  · rw [if_pos hw, posixJoin_data_mid _ _ (by rfl) s3n s3e, s3, hpath]
    simp only [List.append_assoc]
    exact congrArg ((posixDirname (realpath file)).data ++ ·) (by decide)
  · rw [if_neg hw, posixJoin_data_mid _ _ (by rfl) s3n s3e, s3, hpath]
    simp only [List.append_assoc]
    exact congrArg ((posixDirname (realpath file)).data ++ ·) (by decide)

/-- Witness for C7 at a concrete script location on a non-Windows platform. -/
theorem vendored_tool_fixed_relative_path_witness :
    (checked_in_sdk_path (fun _ => "/sdk/tools/generate_package_config.py")
        "tools/generate_package_config.py").data
      = (posixDirname ((fun _ : String => "/sdk/tools/generate_package_config.py")
          "tools/generate_package_config.py")).data ++ "/sdks/dart-sdk".data
    ∧ (checked_in_sdk_executable "Linux"
        (fun _ => "/sdk/tools/generate_package_config.py")
        "tools/generate_package_config.py").data
      = (posixDirname ((fun _ : String => "/sdk/tools/generate_package_config.py")
          "tools/generate_package_config.py")).data ++ "/sdks/dart-sdk/bin/".data
          ++ (if is_windows "Linux" then "dart.exe" else "dart").data :=
  vendored_tool_fixed_relative_path "Linux"
    (fun _ => "/sdk/tools/generate_package_config.py")
    "tools/generate_package_config.py" (by decide) (by decide)

/-- C8: when the invocation mechanism itself fails (missing or non-executable
vendored binary), the launcher exits with the non-zero status 1, produced by
the uncaught exception rather than by any error classification of its own. -/
theorem missing_executable_nonzero_exit (osId : String) (realpath : String → String)
    (file : String) (spawn : ChildCall → SpawnResult)
    (h : spawn (childCall osId realpath file) = SpawnResult.spawnError) :
    Main osId realpath file spawn = 1 ∧ Main osId realpath file spawn ≠ 0 := by
  have hm : Main osId realpath file spawn = 1 := by
    unfold Main generate_package_config
    rw [h]
  exact ⟨hm, by rw [hm]; decide⟩

/-- Witness for C8: a spawn oracle that always fails to launch makes the
launcher exit with status 1. -/
theorem missing_executable_nonzero_exit_witness :
    Main "Linux" (fun s => s) "/sdk/tools/generate_package_config.py"
        (fun _ => SpawnResult.spawnError) = 1
    ∧ Main "Linux" (fun s => s) "/sdk/tools/generate_package_config.py"
        (fun _ => SpawnResult.spawnError) ≠ 0 :=
  missing_executable_nonzero_exit "Linux" (fun s => s)
    "/sdk/tools/generate_package_config.py" (fun _ => SpawnResult.spawnError) rfl

/-- C9: the `PUB_CACHE` value passed to the child equals the child's working
directory joined with `.dart_tool/sdk_pub_cache`, hence extends that working
directory by a nonempty suffix. -/
theorem pub_cache_inside_cwd (osId : String) (realpath : String → String)
    (file : String) (parentEnv : List (String × String)) :
    envLookup (effectiveChildEnv parentEnv (childCall osId realpath file)) "PUB_CACHE"
      = some (posixJoin (childCall osId realpath file).cwd ".dart_tool/sdk_pub_cache")
    ∧ ∃ t : List Char, t ≠ [] ∧
        (posixJoin (childCall osId realpath file).cwd ".dart_tool/sdk_pub_cache").data
          = (childCall osId realpath file).cwd.data ++ t := by
  constructor
  · rfl
  · show ∃ t, t ≠ [] ∧ (posixJoin (sdk_dir realpath file) ".dart_tool/sdk_pub_cache").data
        = (sdk_dir realpath file).data ++ t
    unfold posixJoin
    rw [show strStartsWithSlash ".dart_tool/sdk_pub_cache" = false from rfl]
    simp only [Bool.false_eq_true, if_false]
    by_cases h : ((sdk_dir realpath file).data.isEmpty || strEndsWithSlash (sdk_dir realpath file)) = true
    · rw [if_pos h]
      exact ⟨".dart_tool/sdk_pub_cache".data, by decide, rfl⟩
    · rw [if_neg h]
      exact ⟨'/' :: ".dart_tool/sdk_pub_cache".data, by decide, rfl⟩

/-- C10: every path computation is a function of the symlink-resolved real
path of the script file, so two invocations through different symlinks to the
same physical file compute the same executable path and the same child call
(working directory and environment included). -/
theorem paths_determined_by_realpath (osId : String) (realpath : String → String)
    (f1 f2 : String) (h : realpath f1 = realpath f2) :
    checked_in_sdk_executable osId realpath f1 = checked_in_sdk_executable osId realpath f2
    ∧ childCall osId realpath f1 = childCall osId realpath f2 := by
  unfold childCall checked_in_sdk_executable checked_in_sdk_path sdk_dir
  rw [h]
  exact ⟨rfl, rfl⟩

/-- Witness for C10: two different symlink names resolving to the same real
path yield identical computed paths and child calls. -/
theorem paths_determined_by_realpath_witness :
    checked_in_sdk_executable "Linux" (fun _ => "/repo/tools/generate_package_config.py") "link1"
      = checked_in_sdk_executable "Linux" (fun _ => "/repo/tools/generate_package_config.py") "link2"
    ∧ childCall "Linux" (fun _ => "/repo/tools/generate_package_config.py") "link1"
      = childCall "Linux" (fun _ => "/repo/tools/generate_package_config.py") "link2" :=
  paths_determined_by_realpath "Linux" (fun _ => "/repo/tools/generate_package_config.py")
    "link1" "link2" rfl
